import Mathlib

/-!
Shallow embedding of the SyncStream realtime synchronization core.

The definitions below translate the server code of the repository:
`server/storage.ts` (the `MemStorage` class), `server/routes.ts`
(the WebSocket connection handler, message handler and broadcast helper,
in both its TypeScript form and the bundled variant), the shared message
schema, and the client reconnection logic of
`client/src/hooks/use-websocket.ts`.

JavaScript runtime values are modelled explicitly: a field of an object
can be `undefined` (key absent or explicitly undefined), `null`, or a
proper value.  Object spread (`{...a, ...b}`) copies every own key of
`b`, including keys whose value is `undefined`; the `||` operator picks
its right operand when the left one is falsy (`undefined`, `null`,
`false`, `0`, the empty string; arrays are always truthy).
-/

/-- JavaScript-like field value: `undefined`, `null`, or a value of type `α`. -/
inductive JsVal (α : Type) where
  | undef : JsVal α
  | null : JsVal α
  | val : α → JsVal α
deriving Repr, DecidableEq

/-- Truthiness of a JS number (`0` is falsy, every other number truthy). -/
def JsVal.truthyInt : JsVal Int → Bool
  | .val n => n != 0
  | _ => false

/-- Truthiness of a JS boolean. -/
def JsVal.truthyBool : JsVal Bool → Bool
  | .val b => b
  | _ => false

/-- Truthiness of a JS string (the empty string is falsy). -/
def JsVal.truthyStr : JsVal String → Bool
  | .val s => s != ""
  | _ => false

/-- Truthiness of a JS array value: any array object is truthy, also `[]`. -/
def JsVal.truthyArr {α : Type} : JsVal (List α) → Bool
  | .val _ => true
  | _ => false

/-- JS `x || d` for a numeric field with a numeric default. -/
def jsOrInt (x : JsVal Int) (d : Int) : Int :=
  match x with
  | .val n => if n = 0 then d else n
  | _ => d

/-- JS `x || d` for a boolean field with a boolean default. -/
def jsOrBool (x : JsVal Bool) (d : Bool) : Bool :=
  match x with
  | .val b => if b then b else d
  | _ => d

/-- JS `x || d` for a string field with a string default. -/
def jsOrStr (x : JsVal String) (d : String) : String :=
  match x with
  | .val s => if s = "" then d else s
  | _ => d

/-- JS `x || d` for an array field (arrays are always truthy). -/
def jsOrArr {α : Type} (x : JsVal (List α)) (d : List α) : List α :=
  match x with
  | .val l => l
  | _ => d

/-- JS `x || null` for a numeric field (`0` is coerced to `null`). -/
def jsOrNullInt (x : JsVal Int) : JsVal Int :=
  match x with
  | .val n => if n = 0 then .null else .val n
  | _ => .null

/-- JS `x || null` for a boolean field (`false` is coerced to `null`). -/
def jsOrNullBool (x : JsVal Bool) : JsVal Bool :=
  match x with
  | .val b => if b then .val b else .null
  | _ => .null

/-- JS `x || null` for a string field (`""` is coerced to `null`). -/
def jsOrNullStr (x : JsVal String) : JsVal String :=
  match x with
  | .val s => if s = "" then .null else .val s
  | _ => .null

/-- VideoSource of `shared/schema.ts`: one playable variant inside a session. -/
structure VideoSource where
  id : String
  url : String
  title : String
  addedBy : Option String
deriving Repr, DecidableEq

/-- Runtime session object held by `MemStorage.sessions`.  Fields are JS
values: a variant of `createSession` omits some keys entirely, which is
`undef` here. Timestamps are abstract ticks. -/
structure Session where
  id : String
  videoUrl : JsVal String
  videoSources : JsVal (List VideoSource)
  selectedSourceId : JsVal String
  isPlaying : JsVal Bool
  currentTime : JsVal Int
  createdAt : Nat
  updatedAt : Nat
deriving Repr, DecidableEq

/-- Insert payload accepted by `createSession` (the fields picked by
`insertSessionSchema`). -/
structure InsertSession where
  id : String
  videoUrl : JsVal String
  videoSources : JsVal (List VideoSource)
  isPlaying : JsVal Bool
  currentTime : JsVal Int
deriving Repr, DecidableEq

/-- Viewer record of `MemStorage.viewers`. -/
structure Viewer where
  id : Nat
  sessionId : String
  viewerId : String
  lastSeen : Nat
deriving Repr, DecidableEq

/-- Data payload of a wire message (`SyncMessage.data`).  Each field is a
JS value; an absent key reads as `undefined`. -/
structure MsgData where
  currentTime : JsVal Int
  isPlaying : JsVal Bool
  videoUrl : JsVal String
  videoSources : JsVal (List VideoSource)
  selectedSourceId : JsVal String
  videoSource : JsVal VideoSource
  viewerId : JsVal String
deriving Repr, DecidableEq

/-- Data object with every key absent. -/
def MsgData.empty : MsgData :=
  ⟨.undef, .undef, .undef, .undef, .undef, .undef, .undef⟩

/-- Message types appearing in the repository's `SyncMessage` unions and
handlers. -/
inductive MsgType where
  | sync | play | pause | seek | videoChange
  | sourceAdd | sourceRemove | sourceChange
  | viewerJoin | viewerLeave | reaction
deriving Repr, DecidableEq

/-- Wire message envelope `SyncMessage` of `shared/schema.ts`. -/
structure Message where
  type : MsgType
  sessionId : String
  data : Option MsgData
deriving Repr, DecidableEq

/-- JS `message.data?.field` access: reading through an absent `data`
yields an all-`undefined` record. -/
def Message.dataOf (m : Message) : MsgData :=
  match m.data with
  | some d => d
  | none => MsgData.empty

/-! Association-list model of a JS `Map` (insertion order preserved;
`set` on an existing key updates in place). -/

/-- JS `Map.get`. -/
def mapGet {α : Type} (m : List (String × α)) (k : String) : Option α :=
  (m.find? (fun p => p.1 == k)).map (fun p => p.2)

/-- JS `Map.has`. -/
def mapHas {α : Type} (m : List (String × α)) (k : String) : Bool :=
  m.any (fun p => p.1 == k)

/-- JS `Map.set`: replaces the value at an existing key in place, else
appends the new binding. -/
def mapSet {α : Type} (m : List (String × α)) (k : String) (v : α) :
    List (String × α) :=
  if mapHas m k then
    m.map (fun p => if p.1 == k then (k, v) else p)
  else
    m ++ [(k, v)]

/-- JS `Map.delete` (the Bool result tells whether the key existed). -/
def mapDelete {α : Type} (m : List (String × α)) (k : String) :
    List (String × α) :=
  m.filter (fun p => p.1 != k)

/-! Session store operations of `MemStorage` (server/storage.ts). -/

/-- Store of sessions keyed by session id. -/
abbrev SessionStore : Type := List (String × Session)

/-- MemStorage.getSession. -/
def getSession (store : SessionStore) (id : String) : Option Session :=
  mapGet store id

/-- MemStorage.createSession of the TypeScript `server/storage.ts`: builds
a fresh session object (the literal has no `videoUrl` or
`selectedSourceId` key; `isPlaying` and `currentTime` go through
`|| null`, `videoSources` through `|| []`) and stores it unconditionally,
overwriting any entry already present at that id. -/
def createSession (now : Nat) (store : SessionStore) (ins : InsertSession) :
    SessionStore × Session :=
  let s : Session :=
    { id := ins.id
      videoUrl := .undef
      videoSources := .val (jsOrArr ins.videoSources [])
      selectedSourceId := .undef
      isPlaying := jsOrNullBool ins.isPlaying
      currentTime := jsOrNullInt ins.currentTime
      createdAt := now
      updatedAt := now }
  (mapSet store ins.id s, s)

/-- Update object passed to `updateSession`: an outer `none` means the key
is absent from the updates object, `some v` that the key is present with
JS value `v` (possibly `undefined`). -/
structure SessionUpdates where
  videoUrl : Option (JsVal String)
  videoSources : Option (JsVal (List VideoSource))
  selectedSourceId : Option (JsVal String)
  isPlaying : Option (JsVal Bool)
  currentTime : Option (JsVal Int)
deriving Repr, DecidableEq

/-- Updates object with no keys. -/
def SessionUpdates.none : SessionUpdates := ⟨Option.none, Option.none, Option.none, Option.none, Option.none⟩

/-- JS object spread on one field: a key present in the updates object
overwrites the session's field even when its value is `undefined`. -/
def spreadField {α : Type} (old : JsVal α) (upd : Option (JsVal α)) : JsVal α :=
  match upd with
  | some v => v
  | none => old

/-- MemStorage.updateSession: `{...session, ...updates, updatedAt: now}`;
returns the store unchanged when the id is absent. -/
def updateSession (now : Nat) (store : SessionStore) (id : String)
    (u : SessionUpdates) : SessionStore × Option Session :=
  match getSession store id with
  | none => (store, none)
  | some s =>
    let s2 : Session :=
      { id := s.id
        videoUrl := spreadField s.videoUrl u.videoUrl
        videoSources := spreadField s.videoSources u.videoSources
        selectedSourceId := spreadField s.selectedSourceId u.selectedSourceId
        isPlaying := spreadField s.isPlaying u.isPlaying
        currentTime := spreadField s.currentTime u.currentTime
        createdAt := s.createdAt
        updatedAt := now }
    (mapSet store id s2, some s2)

/-! Viewer registry operations of `MemStorage`. -/

/-- Composite registry key: the template string of the code. -/
def viewerKey (sessionId viewerId : String) : String :=
  sessionId ++ "-" ++ viewerId

/-- MemStorage.addViewer: allocates the next numeric id and sets the
entry at the composite key (overwriting whatever was there). -/
def addViewer (viewers : List (String × Viewer)) (nextId now : Nat)
    (sessionId viewerId : String) : List (String × Viewer) × Nat :=
  (mapSet viewers (viewerKey sessionId viewerId)
    { id := nextId, sessionId := sessionId, viewerId := viewerId, lastSeen := now },
   nextId + 1)

/-- MemStorage.removeViewer: deletes the composite key; the Bool result is
whether the key existed. -/
def removeViewer (viewers : List (String × Viewer)) (sessionId viewerId : String) :
    List (String × Viewer) × Bool :=
  (mapDelete viewers (viewerKey sessionId viewerId),
   mapHas viewers (viewerKey sessionId viewerId))

/-- MemStorage.updateViewerLastSeen: refreshes `lastSeen` when the
composite key is present, otherwise does nothing. -/
def updateViewerLastSeen (viewers : List (String × Viewer)) (now : Nat)
    (sessionId viewerId : String) : List (String × Viewer) :=
  match mapGet viewers (viewerKey sessionId viewerId) with
  | some w =>
    mapSet viewers (viewerKey sessionId viewerId)
      { id := w.id, sessionId := w.sessionId, viewerId := w.viewerId, lastSeen := now }
  | none => viewers

/-! Connection multiplexer and broadcast (server/routes.ts). -/

/-- Transport state of a socket; only `open` transports receive sends. -/
structure Conn where
  sessionId : String
  viewerId : String
  isOpen : Bool
deriving Repr, DecidableEq

/-- One entry of the `connections` map: connection id and its record. -/
structure ConnEntry where
  connId : String
  conn : Conn
deriving Repr, DecidableEq

/-- One outbound transport write: target connection id and the message. -/
structure Send where
  target : String
  msg : Message
deriving Repr, DecidableEq

/-- Delivery test of `broadcastToSession`: session matches, the viewer is
not the excluded one, and the socket is open. -/
def bcastPred (sessionId : String) (excl : Option String) (e : ConnEntry) : Bool :=
  e.conn.sessionId == sessionId &&
  (match excl with
   | none => true
   | some x => e.conn.viewerId != x) &&
  e.conn.isOpen

/-- Connections selected by one `broadcastToSession` call, in map order. -/
def broadcastTargets (conns : List ConnEntry) (sessionId : String)
    (excl : Option String) : List ConnEntry :=
  conns.filter (bcastPred sessionId excl)

/-- broadcastToSession of server/routes.ts: sends the message to every
selected connection, one independent write per connection. -/
def broadcastToSession (conns : List ConnEntry) (sessionId : String)
    (m : Message) (excl : Option String) : List Send :=
  (broadcastTargets conns sessionId excl).map (fun e => ⟨e.connId, m⟩)

/-- Whole server state touched by the WebSocket handlers. -/
structure ServerState where
  sessions : SessionStore
  viewers : List (String × Viewer)
  nextViewerId : Nat
  connections : List ConnEntry
deriving Repr, DecidableEq

/-! Join flow (`wss.on('connection')`): register, add viewer, broadcast
`viewer-join` to the others, then send the snapshot to the new connection
when the session exists and the socket is still open. -/

/-- The viewer-join notification constructed by the connection handler. -/
def viewerJoinMsg (sessionId viewerId : String) : Message :=
  { type := .viewerJoin
    sessionId := sessionId
    data := some { MsgData.empty with viewerId := .val viewerId } }

/-- Join-time snapshot of src/server/routes.ts: a `sync` message whose data
carries only `currentTime`, `isPlaying` and `videoUrl`, each behind a `||`
default. -/
def snapshotRoutes (sessionId : String) (s : Session) : Message :=
  { type := .sync
    sessionId := sessionId
    data := some
      { MsgData.empty with
        currentTime := .val (jsOrInt s.currentTime 0)
        isPlaying := .val (jsOrBool s.isPlaying false)
        videoUrl := .val (jsOrStr s.videoUrl "") } }

/-- Join-time snapshot of the bundled server variant: additionally carries
`videoSources` behind `|| []` and `selectedSourceId` verbatim. -/
def snapshotBundle (sessionId : String) (s : Session) : Message :=
  { type := .sync
    sessionId := sessionId
    data := some
      { MsgData.empty with
        currentTime := .val (jsOrInt s.currentTime 0)
        isPlaying := .val (jsOrBool s.isPlaying false)
        videoUrl := .val (jsOrStr s.videoUrl "")
        videoSources := .val (jsOrArr s.videoSources [])
        selectedSourceId := s.selectedSourceId } }

/-- Insertion of a connection entry, JS `Map.set` on the connections map. -/
def connSet (conns : List ConnEntry) (k : String) (c : Conn) : List ConnEntry :=
  if conns.any (fun e => e.connId == k) then
    conns.map (fun e => if e.connId == k then ⟨k, c⟩ else e)
  else
    conns ++ [⟨k, c⟩]

/-- Connection-open handler, parametrised by the snapshot builder of the
variant.  `wsOpen` is the socket's readyState when the `getSession`
promise resolves. -/
def wsJoin (snapshot : String → Session → Message) (now : Nat)
    (st : ServerState) (connId sessionId viewerId : String) (wsOpen : Bool) :
    ServerState × List Send :=
  let connList := connSet st.connections connId
      { sessionId := sessionId, viewerId := viewerId, isOpen := wsOpen }
  let (viewers2, nextId2) := addViewer st.viewers st.nextViewerId now sessionId viewerId
  let joinSends := broadcastToSession connList sessionId
      (viewerJoinMsg sessionId viewerId) (some viewerId)
  let snapSends :=
    match getSession st.sessions sessionId with
    | some s => if wsOpen then [Send.mk connId (snapshot sessionId s)] else []
    | none => []
  ({ sessions := st.sessions
     viewers := viewers2
     nextViewerId := nextId2
     connections := connList },
   joinSends ++ snapSends)

/-! Message handler (`ws.on('message')`) of src/server/routes.ts. -/

/-- Spec membership test for the playback mutation branch. -/
def isPlaybackType (t : MsgType) : Bool :=
  t == .sync || t == .play || t == .pause || t == .seek

/-- Modelled from the spec: `storage.addVideoSource` is called by the
routes but its implementation is not under src/ (only callers and the
storage interface are present).  Per the spec's protocol table,
`source-add` appends a VideoSource to `videoSources` and the updated full
source list is returned for broadcasting (ids are always present in the
modelled VideoSource, so id generation does not arise). -/
def addVideoSource (now : Nat) (store : SessionStore) (id : String)
    (src : VideoSource) : SessionStore × List VideoSource :=
  match getSession store id with
  | none => (store, [])
  | some s =>
    let l := jsOrArr s.videoSources [] ++ [src]
    ((updateSession now store id
        { SessionUpdates.none with videoSources := some (.val l) }).1, l)

/-- Modelled from the spec: `storage.removeVideoSource` is called by the
routes but its implementation is not under src/.  Per the spec's protocol
table, `source-remove` removes a VideoSource by id from `videoSources`
and the updated full source list is returned for broadcasting. -/
def removeVideoSource (now : Nat) (store : SessionStore) (id : String)
    (sourceId : String) : SessionStore × List VideoSource :=
  match getSession store id with
  | none => (store, [])
  | some s =>
    let l := (jsOrArr s.videoSources []).filter (fun v => v.id != sourceId)
    ((updateSession now store id
        { SessionUpdates.none with videoSources := some (.val l) }).1, l)

/-- Message handler body for a successfully parsed message.  `sessionId`
and `viewerId` are the connection's own parameters (the handler closes
over them; it never uses `message.sessionId` for storage access). -/
def handleParsedMessage (now : Nat) (st : ServerState)
    (sessionId viewerId : String) (m : Message) : ServerState × List Send :=
  let d := m.dataOf
  let sess1 :=
    if isPlaybackType m.type then
      (updateSession now st.sessions sessionId
        { SessionUpdates.none with
          currentTime := some d.currentTime
          isPlaying := some d.isPlaying }).1
    else st.sessions
  let sess2 :=
    if m.type == .videoChange && d.videoUrl.truthyStr then
      (updateSession now sess1 sessionId
        { SessionUpdates.none with
          videoUrl := some d.videoUrl
          currentTime := some (.val 0)
          isPlaying := some (.val false) }).1
    else sess1
  let (sess3, addSends) :=
    if m.type == .sourceAdd then
      match d.videoSource with
      | .val src =>
        let (s4, l) := addVideoSource now sess2 sessionId src
        (s4, broadcastToSession st.connections sessionId
          { type := .sourceAdd, sessionId := sessionId
            data := some { MsgData.empty with videoSources := .val l } } none)
      | _ => (sess2, [])
    else (sess2, [])
  let (sess5, remSends) :=
    if m.type == .sourceRemove && d.selectedSourceId.truthyStr then
      let (s6, l) := removeVideoSource now sess3 sessionId
        (jsOrStr d.selectedSourceId "")
      (s6, broadcastToSession st.connections sessionId
        { type := .sourceRemove, sessionId := sessionId
          data := some { MsgData.empty with videoSources := .val l } } none)
    else (sess3, [])
  let relaySends := broadcastToSession st.connections sessionId m (some viewerId)
  let viewers2 := updateViewerLastSeen st.viewers now sessionId viewerId
  ({ sessions := sess5
     viewers := viewers2
     nextViewerId := st.nextViewerId
     connections := st.connections },
   addSends ++ remSends ++ relaySends)

/-- Raw inbound frame: either a body that fails `JSON.parse` or a parsed
message. -/
inductive Inbound where
  | parseFailure : Inbound
  | ok : Message → Inbound
deriving Repr, DecidableEq

/-- Full message event handler with its try/catch: a body that fails to
parse is caught and logged, leaving the state untouched and sending
nothing. -/
def handleInbound (now : Nat) (st : ServerState)
    (sessionId viewerId : String) : Inbound → ServerState × List Send
  | .parseFailure => (st, [])
  | .ok m => handleParsedMessage now st sessionId viewerId m

/-! Client reconnection engine (client/src/hooks/use-websocket.ts). -/

/-- Connection status values of the hook. -/
inductive ConnStatus where
  | connecting | connected | disconnected | error
deriving Repr, DecidableEq

/-- Client-side reconnection state: the retry counter ref and the status. -/
structure WsClientState where
  reconnectAttempts : Nat
  status : ConnStatus
deriving Repr, DecidableEq

/-- Backoff delay scheduled by `ws.onclose`. -/
def backoffDelay (c : Nat) : Nat := min (1000 * 2 ^ c) 10000

/-- ws.onclose: drop to `disconnected`; when fewer than 5 attempts were
made, schedule a retry after the backoff delay, else move to `error`
with nothing scheduled. -/
def wsOnClose (st : WsClientState) : WsClientState × Option Nat :=
  if st.reconnectAttempts < 5 then
    ({ reconnectAttempts := st.reconnectAttempts, status := .disconnected },
     some (backoffDelay st.reconnectAttempts))
  else
    ({ reconnectAttempts := st.reconnectAttempts, status := .error }, none)

/-- Firing of the scheduled retry timer: increment the counter and call
`connect()`, which sets the status to `connecting`. -/
def wsRetryFire (st : WsClientState) : WsClientState :=
  { reconnectAttempts := st.reconnectAttempts + 1, status := .connecting }

/-- ws.onopen: connected, retry counter reset to 0. -/
def wsOnOpen (_st : WsClientState) : WsClientState :=
  { reconnectAttempts := 0, status := .connected }

/-- One immediate connection failure: the close fires and, when a retry
was scheduled, the timer fires immediately.  Returns the scheduled delay
of this failure, if any. -/
def wsFailure (st : WsClientState) : WsClientState × Option Nat :=
  match wsOnClose st with
  | (st2, some d) => (wsRetryFire st2, some d)
  | (st2, none) => (st2, none)

/-- Trace of `n` consecutive immediate failures: the list of scheduled
delays (one entry per failure) and the final state. -/
def failureTrace : Nat → WsClientState → List (Option Nat) × WsClientState
  | 0, st => ([], st)
  | n + 1, st =>
    let (st2, d) := wsFailure st
    let (ds, st3) := failureTrace n st2
    (d :: ds, st3)

/-! Spec-side predicates and concrete fixtures used by the claim theorems. -/

/-- Spec-side reading of the snapshot-consistency claim: the message
carries a data object equal to the session's current state in all five
fields (currentTime, isPlaying, videoUrl, videoSources,
selectedSourceId). -/
def snapshotMatchesAllFive (m : Message) (s : Session) : Bool :=
  match m.data with
  | none => false
  | some d =>
    d.currentTime == s.currentTime && d.isPlaying == s.isPlaying &&
    d.videoUrl == s.videoUrl && d.videoSources == s.videoSources &&
    d.selectedSourceId == s.selectedSourceId

/-- Session fixture with all five fields holding proper values. -/
def sessFull : Session :=
  ⟨"s", .val "u", .val [⟨"k", "http://x/y.mp4", "t", none⟩], .val "k",
   .val true, .val 7, 0, 0⟩

/-- Server fixture: the store knows session "s", no connections yet. -/
def stFull : ServerState := ⟨[("s", sessFull)], [], 1, []⟩

/-! HTTP facade for session creation (server/routes.ts). -/

/-- POST /api/sessions handler of server/routes.ts: looks the session up
first and calls createSession only when it is absent (the zod parse of
the picked fields is the identity on this payload; the request's
videoUrl goes through `|| null`). -/
def postSessions (now : Nat) (store : SessionStore) (sessionId : String)
    (videoUrl : JsVal String) : SessionStore × Session :=
  match getSession store sessionId with
  | some s => (store, s)
  | none =>
    createSession now store
      { id := sessionId
        videoUrl := jsOrNullStr videoUrl
        videoSources := .undef
        isPlaying := .val false
        currentTime := .val 0 }

/-! Fixture with two open connections in one session. -/

/-- Server fixture with two open connections v1, v2 in session "s". -/
def stTwoConns : ServerState :=
  ⟨[("s", sessFull)], [], 1,
   [⟨"c1", ⟨"s", "v1", true⟩⟩, ⟨"c2", ⟨"s", "v2", true⟩⟩]⟩

/-! Inbound source-remove message fixture. -/

/-- Inbound source-remove message carrying the id to remove in
`data.selectedSourceId`, as the client sends it. -/
def srcRemoveMsg (msid x : String) : Message :=
  ⟨.sourceRemove, msid, some { MsgData.empty with selectedSourceId := .val x }⟩

/-! Invariant candidates for currentTime non-negativity. -/

/-- Invariant candidate on one field: a numeric currentTime is
non-negative (null and undefined carry no number). -/
def ctNonnegB : JsVal Int → Bool
  | .val n => decide (0 ≤ n)
  | _ => true

/-- Invariant candidate on the whole store. -/
def storeCtNonneg (store : SessionStore) : Bool :=
  store.all (fun p => ctNonnegB p.2.currentTime)

/-! Helper lemmas about the JS Map model. -/

theorem mapGet_cons {α : Type} (p : String × α) (m : List (String × α)) (k : String) :
    mapGet (p :: m) k = if p.1 == k then some p.2 else mapGet m k := by
  simp only [mapGet, List.find?_cons]
  by_cases h : p.1 == k
  · simp [h]
  · simp [h]

theorem mapHas_cons {α : Type} (p : String × α) (m : List (String × α)) (k : String) :
    mapHas (p :: m) k = (p.1 == k || mapHas m k) := by
  simp [mapHas]

theorem mapGet_append {α : Type} (m1 m2 : List (String × α)) (k : String) :
    mapGet (m1 ++ m2) k = (mapGet m1 k).or (mapGet m2 k) := by
  rcases h : m1.find? (fun p => p.1 == k) with _ | p
  · simp [mapGet, List.find?_append, h]
  · simp [mapGet, List.find?_append, h]

theorem mapGet_eq_none_of_not_has {α : Type} (m : List (String × α)) (k : String)
    (h : mapHas m k = false) : mapGet m k = none := by
  induction m with
  | nil => rfl
  | cons p m ih =>
    rw [mapHas_cons, Bool.or_eq_false_iff] at h
    rw [mapGet_cons, h.1, if_neg (by simp)]
    exact ih h.2

theorem mapGet_replace_other {α : Type} (m : List (String × α)) (k k' : String) (v : α)
    (hne : k' ≠ k) :
    mapGet (m.map (fun p => if p.1 == k then (k, v) else p)) k' = mapGet m k' := by
  induction m with
  | nil => rfl
  | cons p m ih =>
    rw [List.map_cons]
    by_cases hp : p.1 = k
    · simp only [mapGet_cons, if_pos (show (p.1 == k) = true by simp [hp])]
      simp only [hp, Ne.symm hne, mapGet_cons]
      simp only [show ((k, v).1 == k') = false by simp [Ne.symm hne], Bool.false_eq_true,
        if_false]
      simpa using ih
    · simp only [mapGet_cons, if_neg (show ¬ (p.1 == k) = true by simp [hp])]
      by_cases hq : p.1 = k'
      · simp [hq]
      · simp only [show (p.1 == k') = false by simp [hq], Bool.false_eq_true, if_false]
        simpa using ih

theorem mapGet_replace_self {α : Type} (m : List (String × α)) (k : String) (v : α)
    (h : mapHas m k = true) :
    mapGet (m.map (fun p => if p.1 == k then (k, v) else p)) k = some v := by
  induction m with
  | nil => simp [mapHas] at h
  | cons p m ih =>
    rw [List.map_cons]
    by_cases hp : p.1 = k
    · simp only [if_pos (show (p.1 == k) = true by simp [hp]), mapGet_cons]
      simp
    · simp only [if_neg (show ¬ (p.1 == k) = true by simp [hp]), mapGet_cons]
      rw [mapHas_cons] at h
      simp only [Bool.or_eq_true] at h
      rcases h with h | h
      · simp [hp] at h
      · exact ih h

theorem mapGet_mapSet {α : Type} (m : List (String × α)) (k k' : String) (v : α) :
    mapGet (mapSet m k v) k' = if k' = k then some v else mapGet m k' := by
  unfold mapSet
  by_cases hh : mapHas m k
  · rw [if_pos hh]
    by_cases he : k' = k
    · subst he
      rw [if_pos rfl]
      exact mapGet_replace_self m k' v hh
    · rw [if_neg he]
      exact mapGet_replace_other m k k' v he
  · rw [if_neg hh]
    have hn : mapGet m k = none :=
      mapGet_eq_none_of_not_has m k (by simpa using hh)
    rw [mapGet_append]
    by_cases he : k' = k
    · subst he
      rw [hn, if_pos rfl, mapGet_cons]
      simp
    · rw [if_neg he, mapGet_cons]
      have : ((k, v).1 == k') = false := by simp [Ne.symm he]
      rw [this, if_neg (by simp)]
      simp [mapGet]

theorem mapGet_mapDelete {α : Type} (m : List (String × α)) (k k' : String)
    (hne : k' ≠ k) :
    mapGet (mapDelete m k) k' = mapGet m k' := by
  induction m with
  | nil => rfl
  | cons p m ih =>
    unfold mapDelete
    rw [List.filter_cons]
    by_cases hp : p.1 = k
    · rw [if_neg (by simp [hp])]
      rw [mapGet_cons, if_neg (by simp [hp, Ne.symm hne])]
      exact ih
    · rw [if_pos (by simp [hp]), mapGet_cons, mapGet_cons]
      by_cases hq : p.1 = k'
      · rw [if_pos (by simp [hq]), if_pos (by simp [hq])]
      · rw [if_neg (by simp [hq]), if_neg (by simp [hq])]
        exact ih

theorem all_mapSet {α : Type} (P : α → Bool) (m : List (String × α)) (k : String)
    (v : α) (hm : m.all (fun p => P p.2) = true) (hv : P v = true) :
    (mapSet m k v).all (fun p => P p.2) = true := by
  rw [List.all_eq_true] at hm ⊢
  intro p hp
  unfold mapSet at hp
  split at hp
  · obtain ⟨q, hq, rfl⟩ := List.mem_map.mp hp
    by_cases h : q.1 = k
    · simp only [if_pos (by simp [h] : (q.1 == k) = true)]
      exact hv
    · simp only [if_neg (by simp [h] : ¬ (q.1 == k) = true)]
      exact hm q hq
  · rcases List.mem_append.mp hp with h | h
    · exact hm p h
    · rcases List.mem_singleton.mp h with rfl
      exact hv

theorem mem_of_mapGet {α : Type} (m : List (String × α)) (k : String) (v : α)
    (h : mapGet m k = some v) : ∃ p, p ∈ m ∧ p.2 = v := by
  unfold mapGet at h
  rcases hf : m.find? (fun p => p.1 == k) with _ | p
  · rw [hf] at h
    simp at h
  · rw [hf] at h
    refine ⟨p, List.mem_of_find?_eq_some hf, ?_⟩
    simpa using h

/-! Claim theorems. -/

/-- Claim C3: starting from a fresh connection (retry counter 0), five
consecutive immediate failures schedule retries after exactly 1000, 2000,
4000, 8000 and 10000 ms, the sixth failure moves the status to error with
nothing scheduled, the scheduled delay is always
min (1000 * 2 ^ retryCount) 10000 while the counter is below 5, and a
successful open resets the counter to 0. -/
theorem reconnect_backoff_sequence :
    failureTrace 6 ⟨0, .connecting⟩ =
      ([some 1000, some 2000, some 4000, some 8000, some 10000, none],
       ⟨5, .error⟩) ∧
    (∀ st : WsClientState,
      (wsOnClose st).2 =
        if st.reconnectAttempts < 5
        then some (min (1000 * 2 ^ st.reconnectAttempts) 10000)
        else none) ∧
    (∀ st : WsClientState, wsOnOpen st = ⟨0, .connected⟩) := by
  refine ⟨by decide, fun st => ?_, fun st => rfl⟩
  unfold wsOnClose backoffDelay
  by_cases h : st.reconnectAttempts < 5
  · rw [if_pos h, if_pos h]
  · rw [if_neg h, if_neg h]

/-- Claim C2: a broadcast with an excluded viewer selects exactly the
registered connections whose sessionId matches, whose viewerId is not the
excluded one, and whose transport is open; the selection of each
connection is independent of the rest of the list; concretely, with open
connections A, B, C in session S, excluding A's viewer delivers to B and
C and never to A. -/
theorem broadcast_exclusion :
    (∀ (conns : List ConnEntry) (sid x : String) (e : ConnEntry),
      e ∈ broadcastTargets conns sid (some x) ↔
        e ∈ conns ∧ e.conn.sessionId = sid ∧ e.conn.viewerId ≠ x ∧
          e.conn.isOpen = true) ∧
    (∀ (conns1 conns2 : List ConnEntry) (sid : String) (m : Message)
        (excl : Option String),
      broadcastToSession (conns1 ++ conns2) sid m excl =
        broadcastToSession conns1 sid m excl ++
          broadcastToSession conns2 sid m excl) ∧
    (broadcastToSession
        [⟨"ca", ⟨"S", "va", true⟩⟩, ⟨"cb", ⟨"S", "vb", true⟩⟩,
         ⟨"cc", ⟨"S", "vc", true⟩⟩]
        "S" ⟨.play, "S", none⟩ (some "va") =
      [⟨"cb", ⟨.play, "S", none⟩⟩, ⟨"cc", ⟨.play, "S", none⟩⟩]) := by
  refine ⟨fun conns sid x e => ?_, fun conns1 conns2 sid m excl => ?_, by decide⟩
  · simp only [broadcastTargets, List.mem_filter, bcastPred]
    simp [and_assoc]
  · simp [broadcastToSession, broadcastTargets, List.filter_append]

/-! Lemmas about the join flow. -/

theorem connSet_fresh (conns : List ConnEntry) (k : String) (c : Conn)
    (h : ∀ e ∈ conns, e.connId ≠ k) :
    connSet conns k c = conns ++ [⟨k, c⟩] := by
  unfold connSet
  rw [if_neg]
  intro hany
  rw [List.any_eq_true] at hany
  obtain ⟨e, he, heq⟩ := hany
  exact h e he (by simpa using heq)

theorem bcastPred_new_excluded (sid viewerId k : String) (c : Conn)
    (hv : c.viewerId = viewerId) :
    bcastPred sid (some viewerId) ⟨k, c⟩ = false := by
  simp [bcastPred, hv]

theorem wsJoin_connections (snapshot : String → Session → Message) (now : Nat)
    (st : ServerState) (connId sid vid : String) (wsOpen : Bool)
    (hfresh : ∀ e ∈ st.connections, e.connId ≠ connId) :
    (wsJoin snapshot now st connId sid vid wsOpen).1.connections =
      st.connections ++ [⟨connId, ⟨sid, vid, wsOpen⟩⟩] := by
  unfold wsJoin
  simp only [addViewer]
  exact connSet_fresh st.connections connId _ hfresh

theorem wsJoin_sends (snapshot : String → Session → Message) (now : Nat)
    (st : ServerState) (connId sid vid : String) (wsOpen : Bool)
    (hfresh : ∀ e ∈ st.connections, e.connId ≠ connId) :
    (wsJoin snapshot now st connId sid vid wsOpen).2 =
      broadcastToSession st.connections sid (viewerJoinMsg sid vid) (some vid) ++
        (match getSession st.sessions sid, wsOpen with
         | some s, true => [Send.mk connId (snapshot sid s)]
         | _, _ => []) := by
  unfold wsJoin
  simp only [addViewer]
  rw [connSet_fresh st.connections connId _ hfresh]
  rw [show broadcastToSession (st.connections ++ [⟨connId, ⟨sid, vid, wsOpen⟩⟩]) sid
        (viewerJoinMsg sid vid) (some vid) =
      broadcastToSession st.connections sid (viewerJoinMsg sid vid) (some vid) ++
        broadcastToSession [⟨connId, ⟨sid, vid, wsOpen⟩⟩] sid
          (viewerJoinMsg sid vid) (some vid)
      from by simp [broadcastToSession, broadcastTargets, List.filter_append]]
  rw [show broadcastToSession [⟨connId, ⟨sid, vid, wsOpen⟩⟩] sid
        (viewerJoinMsg sid vid) (some vid) = [] from by
      simp [broadcastToSession, broadcastTargets, bcastPred]]
  rcases hs : getSession st.sessions sid with _ | s
  · simp
  · cases wsOpen <;> simp

theorem broadcast_target_not_new (conns : List ConnEntry) (sid connId : String)
    (m : Message) (excl : Option String) (s : Send)
    (hfresh : ∀ e ∈ conns, e.connId ≠ connId)
    (hs : s ∈ broadcastToSession conns sid m excl) : s.target ≠ connId := by
  unfold broadcastToSession broadcastTargets at hs
  obtain ⟨e, he, rfl⟩ := List.mem_map.mp hs
  exact hfresh e (List.mem_filter.mp he).1

theorem wsJoin_sends_to_new (snapshot : String → Session → Message) (now : Nat)
    (st : ServerState) (connId sid vid : String) (wsOpen : Bool)
    (hfresh : ∀ e ∈ st.connections, e.connId ≠ connId) :
    ((wsJoin snapshot now st connId sid vid wsOpen).2.filter
        (fun x => x.target == connId)) =
      (match getSession st.sessions sid, wsOpen with
       | some s, true => [Send.mk connId (snapshot sid s)]
       | _, _ => []) := by
  rw [wsJoin_sends snapshot now st connId sid vid wsOpen hfresh, List.filter_append]
  have h1 : (broadcastToSession st.connections sid (viewerJoinMsg sid vid)
      (some vid)).filter (fun x => x.target == connId) = [] := by
    rw [List.filter_eq_nil_iff]
    intro s hs
    simpa using broadcast_target_not_new st.connections sid connId
      (viewerJoinMsg sid vid) (some vid) s hfresh hs
  rw [h1, List.nil_append]
  rcases getSession st.sessions sid with _ | s
  · cases wsOpen <;> simp
  · cases wsOpen <;> simp

/-- Claim C10: joining with a sessionId absent from the Session Store
sends no snapshot of any kind to the new connection, silently; the
connection is still registered in the multiplexer, the viewer-join is
still broadcast to the other connections of the session, and the new
connection still receives subsequent broadcasts for that session. -/
theorem absent_session_join (snapshot : String → Session → Message) (now : Nat)
    (st : ServerState) (connId sid vid : String) (wsOpen : Bool)
    (hnone : getSession st.sessions sid = none)
    (hfresh : ∀ e ∈ st.connections, e.connId ≠ connId) :
    ((wsJoin snapshot now st connId sid vid wsOpen).2.filter
        (fun x => x.target == connId) = [] ∧
     (wsJoin snapshot now st connId sid vid wsOpen).1.connections =
        st.connections ++ [⟨connId, ⟨sid, vid, wsOpen⟩⟩] ∧
     (wsJoin snapshot now st connId sid vid wsOpen).2 =
        broadcastToSession st.connections sid (viewerJoinMsg sid vid)
          (some vid) ∧
     (∀ (m : Message) (x : String), x ≠ vid → wsOpen = true →
        Send.mk connId m ∈
          broadcastToSession
            (wsJoin snapshot now st connId sid vid wsOpen).1.connections
            sid m (some x))) := by
  refine ⟨?_, wsJoin_connections snapshot now st connId sid vid wsOpen hfresh,
    ?_, ?_⟩
  · rw [wsJoin_sends_to_new snapshot now st connId sid vid wsOpen hfresh, hnone]
  · rw [wsJoin_sends snapshot now st connId sid vid wsOpen hfresh, hnone]
    cases wsOpen <;> simp
  · intro m x hx hopen
    rw [wsJoin_connections snapshot now st connId sid vid wsOpen hfresh]
    unfold broadcastToSession
    refine List.mem_map.mpr ⟨⟨connId, ⟨sid, vid, wsOpen⟩⟩, ?_, rfl⟩
    refine List.mem_filter.mpr ⟨List.mem_append_right _ (List.mem_singleton.mpr rfl), ?_⟩
    subst hopen
    simp [bcastPred, Ne.symm hx]

/-- Witness for C10: concrete one-connection server with an empty session
store; the absent-session join sends nothing to the new connection, keeps
it registered, relays the viewer-join to the other connection, and a
later broadcast reaches the new connection. -/
theorem absent_session_join_witness :
    (getSession (⟨[], [], 1, [⟨"c0", ⟨"s", "v0", true⟩⟩]⟩ :
        ServerState).sessions "s" = none ∧
     (∀ e ∈ (⟨[], [], 1, [⟨"c0", ⟨"s", "v0", true⟩⟩]⟩ :
        ServerState).connections, e.connId ≠ "c1")) ∧
    ((wsJoin snapshotRoutes 1 ⟨[], [], 1, [⟨"c0", ⟨"s", "v0", true⟩⟩]⟩
        "c1" "s" "v1" true).2.filter (fun x => x.target == "c1") = [] ∧
     (wsJoin snapshotRoutes 1 ⟨[], [], 1, [⟨"c0", ⟨"s", "v0", true⟩⟩]⟩
        "c1" "s" "v1" true).1.connections =
        [⟨"c0", ⟨"s", "v0", true⟩⟩] ++ [⟨"c1", ⟨"s", "v1", true⟩⟩] ∧
     (wsJoin snapshotRoutes 1 ⟨[], [], 1, [⟨"c0", ⟨"s", "v0", true⟩⟩]⟩
        "c1" "s" "v1" true).2 =
        broadcastToSession [⟨"c0", ⟨"s", "v0", true⟩⟩] "s"
          (viewerJoinMsg "s" "v1") (some "v1") ∧
     (∀ (m : Message) (x : String), x ≠ "v1" → true = true →
        Send.mk "c1" m ∈
          broadcastToSession
            (wsJoin snapshotRoutes 1 ⟨[], [], 1, [⟨"c0", ⟨"s", "v0", true⟩⟩]⟩
              "c1" "s" "v1" true).1.connections
            "s" m (some x))) :=
  ⟨⟨by decide, by decide⟩,
    absent_session_join snapshotRoutes 1 _ "c1" "s" "v1" true
      (by decide) (by decide)⟩

theorem jsOrInt_val (n : Int) : jsOrInt (.val n) 0 = n := by
  unfold jsOrInt
  by_cases h : n = 0 <;> simp [h]

theorem jsOrBool_val (b : Bool) : jsOrBool (.val b) false = b := by
  cases b <;> rfl

theorem jsOrStr_val (s : String) : jsOrStr (.val s) "" = s := by
  unfold jsOrStr
  by_cases h : s = "" <;> simp [h]

/-- Counterexample to claim C1 as stated: for a session whose source list
and selected source are set, the join flow of src/server/routes.ts sends
the new connection exactly one sync message, but its data omits
videoSources and selectedSourceId, so it does not equal the store's
session in all five fields. -/
theorem snapshot_five_fields_counterexample :
    (wsJoin snapshotRoutes 1 stFull "c1" "s" "v1" true).2 =
      [⟨"c1", snapshotRoutes "s" sessFull⟩] ∧
    snapshotMatchesAllFive (snapshotRoutes "s" sessFull) sessFull = false := by
  decide

/-- Claim C1 amended: the newly joining connection receives exactly one
sync snapshot.  In the bundled server variant the snapshot carries all
five fields and equals the store's session whenever the stored
currentTime, isPlaying, videoUrl and videoSources hold proper values
(the `||` defaults only rewrite null/undefined fields; selectedSourceId
is passed through verbatim).  In src/server/routes.ts the single
snapshot carries only currentTime, isPlaying and videoUrl, omitting
videoSources and selectedSourceId. -/
theorem join_snapshot_amended (now : Nat) (st : ServerState)
    (connId sid vid : String) (s : Session) (ct : Int) (pl : Bool)
    (u : String) (l : List VideoSource)
    (hs : getSession st.sessions sid = some s)
    (hfresh : ∀ e ∈ st.connections, e.connId ≠ connId)
    (hct : s.currentTime = .val ct) (hpl : s.isPlaying = .val pl)
    (hu : s.videoUrl = .val u) (hl : s.videoSources = .val l) :
    ((wsJoin snapshotBundle now st connId sid vid true).2.filter
        (fun x => x.target == connId) = [⟨connId, snapshotBundle sid s⟩] ∧
     snapshotMatchesAllFive (snapshotBundle sid s) s = true ∧
     (wsJoin snapshotRoutes now st connId sid vid true).2.filter
        (fun x => x.target == connId) = [⟨connId, snapshotRoutes sid s⟩] ∧
     (snapshotRoutes sid s).dataOf.videoSources = JsVal.undef ∧
     (snapshotRoutes sid s).dataOf.selectedSourceId = JsVal.undef) := by
  refine ⟨?_, ?_, ?_, rfl, rfl⟩
  · rw [wsJoin_sends_to_new snapshotBundle now st connId sid vid true hfresh, hs]
  · unfold snapshotMatchesAllFive snapshotBundle
    simp [hct, hpl, hu, hl, jsOrInt_val, jsOrBool_val, jsOrStr_val, jsOrArr]
  · rw [wsJoin_sends_to_new snapshotRoutes now st connId sid vid true hfresh, hs]

/-- Witness for C1's amended theorem at the concrete fixture session. -/
theorem join_snapshot_amended_witness :
    (getSession stFull.sessions "s" = some sessFull ∧
     (∀ e ∈ stFull.connections, e.connId ≠ "c1") ∧
     sessFull.currentTime = .val 7 ∧ sessFull.isPlaying = .val true ∧
     sessFull.videoUrl = .val "u" ∧
     sessFull.videoSources = .val [⟨"k", "http://x/y.mp4", "t", none⟩]) ∧
    ((wsJoin snapshotBundle 1 stFull "c1" "s" "v1" true).2.filter
        (fun x => x.target == "c1") = [⟨"c1", snapshotBundle "s" sessFull⟩] ∧
     snapshotMatchesAllFive (snapshotBundle "s" sessFull) sessFull = true ∧
     (wsJoin snapshotRoutes 1 stFull "c1" "s" "v1" true).2.filter
        (fun x => x.target == "c1") = [⟨"c1", snapshotRoutes "s" sessFull⟩] ∧
     (snapshotRoutes "s" sessFull).dataOf.videoSources = JsVal.undef ∧
     (snapshotRoutes "s" sessFull).dataOf.selectedSourceId = JsVal.undef) :=
  ⟨⟨by decide, by decide, by decide, by decide, by decide, by decide⟩,
    join_snapshot_amended 1 stFull "c1" "s" "v1" sessFull 7 true "u"
      [⟨"k", "http://x/y.mp4", "t", none⟩] (by decide) (by decide)
      (by decide) (by decide) (by decide) (by decide)⟩

/-- Counterexample to claim C4 as stated: createSession on an id already
present does not return the existing session and does not leave the
stored state unchanged - it builds a fresh session and overwrites the
entry (here the stored currentTime changes from the number 7 to null and
createdAt from 0 to 5). -/
theorem create_session_counterexample :
    (getSession (createSession 0 []
        ⟨"s", .val "u", .undef, .val true, .val 7⟩).1 "s").map
      (fun s => (s.currentTime, s.createdAt)) = some (.val 7, 0) ∧
    (createSession 5 (createSession 0 []
        ⟨"s", .val "u", .undef, .val true, .val 7⟩).1
        ⟨"s", .undef, .undef, .val false, .val 0⟩).2 ≠
      (createSession 0 [] ⟨"s", .val "u", .undef, .val true, .val 7⟩).2 ∧
    (getSession (createSession 5 (createSession 0 []
        ⟨"s", .val "u", .undef, .val true, .val 7⟩).1
        ⟨"s", .undef, .undef, .val false, .val 0⟩).1 "s").map
      (fun s => (s.currentTime, s.createdAt)) = some (.null, 5) := by
  decide

/-- Claim C4 amended: MemStorage.createSession itself unconditionally
stores a freshly built session, overwriting any existing entry for the
id; get-then-create idempotence holds one level up, in the POST
/api/sessions handler, which returns the existing session and leaves the
store untouched whenever the id is already present. -/
theorem create_session_amended (now : Nat) (store : SessionStore)
    (sessionId : String) (videoUrl : JsVal String) (s : Session)
    (hs : getSession store sessionId = some s) :
    postSessions now store sessionId videoUrl = (store, s) ∧
    (∀ (ins : InsertSession),
      getSession (createSession now store ins).1 ins.id =
        some (createSession now store ins).2) := by
  constructor
  · unfold postSessions
    rw [hs]
  · intro ins
    unfold createSession getSession
    exact mapGet_mapSet store ins.id ins.id _ ▸ (by simp [mapGet_mapSet])

/-- Witness for C4's amended theorem at a concrete store. -/
theorem create_session_amended_witness :
    (getSession [("s", sessFull)] "s" = some sessFull) ∧
    (postSessions 9 [("s", sessFull)] "s" JsVal.undef =
        ([("s", sessFull)], sessFull) ∧
     (∀ (ins : InsertSession),
        getSession (createSession 9 [("s", sessFull)] ins).1 ins.id =
          some (createSession 9 [("s", sessFull)] ins).2)) :=
  ⟨by decide, create_session_amended 9 [("s", sessFull)] "s" JsVal.undef
      sessFull (by decide)⟩

/-! Claim C5: effect of sync/play/pause/seek on the session. -/

/-- Counterexample to claim C5 as stated: a play message whose data omits
currentTime does not leave the session's currentTime unchanged - the
handler always writes both keys, so the stored currentTime 7 is
overwritten with undefined. -/
theorem playback_frame_counterexample :
    (getSession stFull.sessions "s").map (fun s => s.currentTime) =
      some (.val 7) ∧
    (getSession (handleParsedMessage 1 stFull "s" "v1"
        ⟨.play, "s", some { MsgData.empty with isPlaying := .val true }⟩
      ).1.sessions "s").map (fun s => s.currentTime) = some JsVal.undef := by
  decide

/-- Claim C5 amended: for sync/play/pause/seek the handler always writes
both currentTime and isPlaying into the session - a field present in the
data gets its value, a field omitted from the data is overwritten with
undefined rather than left unchanged - while videoUrl, videoSources and
selectedSourceId (and createdAt) stay untouched and only updatedAt is
restamped. -/
theorem playback_update_amended (now : Nat) (st : ServerState)
    (sid vid : String) (m : Message) (s : Session)
    (hty : isPlaybackType m.type = true)
    (hs : getSession st.sessions sid = some s) :
    getSession (handleParsedMessage now st sid vid m).1.sessions sid =
      some { s with currentTime := m.dataOf.currentTime,
                    isPlaying := m.dataOf.isPlaying,
                    updatedAt := now } := by
  have h1 : (m.type == MsgType.videoChange) = false := by
    cases h : m.type <;> simp_all [isPlaybackType]
  have h2 : (m.type == MsgType.sourceAdd) = false := by
    cases h : m.type <;> simp_all [isPlaybackType]
  have h3 : (m.type == MsgType.sourceRemove) = false := by
    cases h : m.type <;> simp_all [isPlaybackType]
  unfold handleParsedMessage
  simp only [hty, if_true, h1, h2, h3, Bool.false_and, Bool.false_eq_true,
    if_false]
  unfold updateSession
  rw [hs]
  simp only [getSession] at hs ⊢
  simp [mapGet_mapSet, spreadField, SessionUpdates.none]

/-- Witness for C5's amended theorem: a play message carrying only
isPlaying clears currentTime to undefined and leaves the other fields of
the fixture session alone. -/
theorem playback_update_amended_witness :
    (isPlaybackType MsgType.play = true ∧
     getSession stFull.sessions "s" = some sessFull) ∧
    getSession (handleParsedMessage 1 stFull "s" "v1"
        ⟨.play, "s", some { MsgData.empty with isPlaying := .val true }⟩
      ).1.sessions "s" =
      some { sessFull with
             currentTime :=
               (Message.dataOf ⟨.play, "s",
                 some { MsgData.empty with isPlaying := .val true }⟩).currentTime,
             isPlaying :=
               (Message.dataOf ⟨.play, "s",
                 some { MsgData.empty with isPlaying := .val true }⟩).isPlaying,
             updatedAt := 1 } :=
  ⟨⟨by decide, by decide⟩,
    playback_update_amended 1 stFull "s" "v1"
      ⟨.play, "s", some { MsgData.empty with isPlaying := .val true }⟩
      sessFull (by decide) (by decide)⟩

/-- Counterexample to claim C6 as stated: a parsed video-change message
with no data lacks its required videoUrl field, yet it is not dropped -
the handler still relays it to the session's other connection (the
store, however, is left unchanged here). -/
theorem malformed_drop_counterexample :
    (handleParsedMessage 1 stTwoConns "s" "v1"
        ⟨.videoChange, "s", none⟩).2 =
      [⟨"c2", ⟨.videoChange, "s", none⟩⟩] ∧
    (handleParsedMessage 1 stTwoConns "s" "v1"
        ⟨.videoChange, "s", none⟩).1.sessions = stTwoConns.sessions := by
  decide

/-- Claim C6 amended: only a body that fails JSON.parse is fully dropped
(state untouched, nothing sent).  A parsed message lacking the data
fields its mutation branch requires skips that mutation but is still
relayed to the session's other connections (here shown for video-change
and source-remove without data).  In every case nothing is echoed to the
sender as an error and the connection stays registered (the handler
never modifies the connections map). -/
theorem malformed_message_amended :
    (∀ (now : Nat) (st : ServerState) (sid vid : String),
      handleInbound now st sid vid .parseFailure = (st, [])) ∧
    (∀ (now : Nat) (st : ServerState) (sid vid : String) (m : Message),
      (handleParsedMessage now st sid vid m).1.connections =
        st.connections) ∧
    (∀ (now : Nat) (st : ServerState) (sid vid msid : String),
      (handleParsedMessage now st sid vid ⟨.videoChange, msid, none⟩).1.sessions =
          st.sessions ∧
      (handleParsedMessage now st sid vid ⟨.videoChange, msid, none⟩).2 =
        broadcastToSession st.connections sid ⟨.videoChange, msid, none⟩
          (some vid)) ∧
    (∀ (now : Nat) (st : ServerState) (sid vid msid : String),
      (handleParsedMessage now st sid vid ⟨.sourceRemove, msid, none⟩).1.sessions =
          st.sessions ∧
      (handleParsedMessage now st sid vid ⟨.sourceRemove, msid, none⟩).2 =
        broadcastToSession st.connections sid ⟨.sourceRemove, msid, none⟩
          (some vid)) := by
  refine ⟨fun now st sid vid => rfl, fun now st sid vid m => ?_,
    fun now st sid vid msid => ?_, fun now st sid vid msid => ?_⟩
  · unfold handleParsedMessage
    rcases m.type <;> simp
  · constructor <;>
      simp [handleParsedMessage, Message.dataOf, MsgData.empty,
        JsVal.truthyStr, isPlaybackType]
  · constructor <;>
      simp [handleParsedMessage, Message.dataOf, MsgData.empty,
        JsVal.truthyStr, isPlaybackType]

theorem filter_idem {α : Type} (l : List α) (p : α → Bool) :
    (l.filter p).filter p = l.filter p := by
  rw [List.filter_filter]
  simp

theorem removeVideoSource_getSession (now : Nat) (store : SessionStore)
    (sid x : String) (s : Session) (hs : getSession store sid = some s) :
    getSession (removeVideoSource now store sid x).1 sid =
      some { s with
             videoSources :=
               .val ((jsOrArr s.videoSources []).filter (fun v => v.id != x))
             updatedAt := now } ∧
    (removeVideoSource now store sid x).2 =
      (jsOrArr s.videoSources []).filter (fun v => v.id != x) := by
  unfold removeVideoSource
  rw [hs]
  constructor
  · unfold updateSession
    rw [hs]
    simp [getSession, mapGet_mapSet, spreadField, SessionUpdates.none]
  · rfl

theorem handle_sourceRemove (now : Nat) (st : ServerState)
    (sid vid msid x : String) (hx : x ≠ "") :
    handleParsedMessage now st sid vid (srcRemoveMsg msid x) =
      ({ sessions := (removeVideoSource now st.sessions sid x).1
         viewers := updateViewerLastSeen st.viewers now sid vid
         nextViewerId := st.nextViewerId
         connections := st.connections },
       broadcastToSession st.connections sid
           ⟨.sourceRemove, sid,
            some { MsgData.empty with
                   videoSources := .val (removeVideoSource now st.sessions sid x).2 }⟩
           none ++
         broadcastToSession st.connections sid (srcRemoveMsg msid x)
           (some vid)) := by
  unfold handleParsedMessage srcRemoveMsg
  simp [Message.dataOf, isPlaybackType, JsVal.truthyStr, hx, jsOrStr]

theorem handle_sourceRemove_sessions (now : Nat) (st : ServerState)
    (sid vid msid x : String) (hx : x ≠ "") :
    (handleParsedMessage now st sid vid (srcRemoveMsg msid x)).1.sessions =
      (removeVideoSource now st.sessions sid x).1 := by
  rw [handle_sourceRemove now st sid vid msid x hx]

theorem handle_sourceRemove_connections (now : Nat) (st : ServerState)
    (sid vid msid x : String) (hx : x ≠ "") :
    (handleParsedMessage now st sid vid (srcRemoveMsg msid x)).1.connections =
      st.connections := by
  rw [handle_sourceRemove now st sid vid msid x hx]

theorem handle_sourceRemove_sends (now : Nat) (st : ServerState)
    (sid vid msid x : String) (hx : x ≠ "") :
    (handleParsedMessage now st sid vid (srcRemoveMsg msid x)).2 =
      broadcastToSession st.connections sid
          ⟨.sourceRemove, sid,
           some { MsgData.empty with
                  videoSources := .val (removeVideoSource now st.sessions sid x).2 }⟩
          none ++
        broadcastToSession st.connections sid (srcRemoveMsg msid x)
          (some vid) := by
  rw [handle_sourceRemove now st sid vid msid x hx]

/-- Claim C7 (spec-modelled storage): source-remove is idempotent and
never an error - applied twice in a row the second application leaves
videoSources exactly as after the first (same filtered list, same
broadcast payload), and each application broadcasts the updated full
source list to the session's connections besides relaying the inbound
message to the other viewers. -/
theorem source_remove_idempotent (now1 now2 : Nat) (st : ServerState)
    (sid vid msid x : String) (s : Session) (hx : x ≠ "")
    (hs : getSession st.sessions sid = some s) :
    ((getSession (handleParsedMessage now2
          (handleParsedMessage now1 st sid vid (srcRemoveMsg msid x)).1
          sid vid (srcRemoveMsg msid x)).1.sessions sid).map
        Session.videoSources =
      (getSession (handleParsedMessage now1 st sid vid
          (srcRemoveMsg msid x)).1.sessions sid).map Session.videoSources) ∧
    ((getSession (handleParsedMessage now1 st sid vid
          (srcRemoveMsg msid x)).1.sessions sid).map Session.videoSources =
      some (.val ((jsOrArr s.videoSources []).filter (fun v => v.id != x)))) ∧
    ((handleParsedMessage now1 st sid vid (srcRemoveMsg msid x)).2 =
      broadcastToSession st.connections sid
          ⟨.sourceRemove, sid,
           some { MsgData.empty with
                  videoSources :=
                    .val ((jsOrArr s.videoSources []).filter
                      (fun v => v.id != x)) }⟩
          none ++
        broadcastToSession st.connections sid (srcRemoveMsg msid x)
          (some vid)) ∧
    ((handleParsedMessage now2
        (handleParsedMessage now1 st sid vid (srcRemoveMsg msid x)).1
        sid vid (srcRemoveMsg msid x)).2 =
      broadcastToSession st.connections sid
          ⟨.sourceRemove, sid,
           some { MsgData.empty with
                  videoSources :=
                    .val ((jsOrArr s.videoSources []).filter
                      (fun v => v.id != x)) }⟩
          none ++
        broadcastToSession st.connections sid (srcRemoveMsg msid x)
          (some vid)) := by
  have r1 := removeVideoSource_getSession now1 st.sessions sid x s hs
  have hs1 : getSession (handleParsedMessage now1 st sid vid
      (srcRemoveMsg msid x)).1.sessions sid =
      some { s with
             videoSources :=
               .val ((jsOrArr s.videoSources []).filter (fun v => v.id != x))
             updatedAt := now1 } := by
    rw [handle_sourceRemove_sessions now1 st sid vid msid x hx]
    exact r1.1
  have r2 := removeVideoSource_getSession now2
    (handleParsedMessage now1 st sid vid (srcRemoveMsg msid x)).1.sessions
    sid x _ hs1
  have hflt : (jsOrArr (JsVal.val ((jsOrArr s.videoSources []).filter
        (fun v => v.id != x))) []).filter (fun v => v.id != x) =
      (jsOrArr s.videoSources []).filter (fun v => v.id != x) := by
    simp only [jsOrArr]
    exact filter_idem (jsOrArr s.videoSources []) (fun v => v.id != x)
  refine ⟨?_, ?_, ?_, ?_⟩
  · rw [handle_sourceRemove_sessions now2 _ sid vid msid x hx, r2.1, hs1]
    simp [hflt]
  · rw [hs1]
    rfl
  · rw [handle_sourceRemove_sends now1 st sid vid msid x hx, r1.2]
  · rw [handle_sourceRemove_sends now2 _ sid vid msid x hx, r2.2]
    rw [handle_sourceRemove_connections now1 st sid vid msid x hx]
    have : (jsOrArr ({ s with
        videoSources :=
          .val ((jsOrArr s.videoSources []).filter (fun v => v.id != x))
        updatedAt := now1 } : Session).videoSources []).filter
          (fun v => v.id != x) =
        (jsOrArr s.videoSources []).filter (fun v => v.id != x) := hflt
    rw [this]

/-- Witness for C7 at the fixture session: removing source "k" twice. -/
theorem source_remove_idempotent_witness :
    (("k" : String) ≠ "" ∧ getSession stFull.sessions "s" = some sessFull) ∧
    ((getSession (handleParsedMessage 2
          (handleParsedMessage 1 stFull "s" "v1" (srcRemoveMsg "s" "k")).1
          "s" "v1" (srcRemoveMsg "s" "k")).1.sessions "s").map
        Session.videoSources =
      (getSession (handleParsedMessage 1 stFull "s" "v1"
          (srcRemoveMsg "s" "k")).1.sessions "s").map Session.videoSources) ∧
    ((getSession (handleParsedMessage 1 stFull "s" "v1"
          (srcRemoveMsg "s" "k")).1.sessions "s").map Session.videoSources =
      some (.val ((jsOrArr sessFull.videoSources []).filter
        (fun v => v.id != "k")))) ∧
    ((handleParsedMessage 1 stFull "s" "v1" (srcRemoveMsg "s" "k")).2 =
      broadcastToSession stFull.connections "s"
          ⟨.sourceRemove, "s",
           some { MsgData.empty with
                  videoSources :=
                    .val ((jsOrArr sessFull.videoSources []).filter
                      (fun v => v.id != "k")) }⟩
          none ++
        broadcastToSession stFull.connections "s" (srcRemoveMsg "s" "k")
          (some "v1")) ∧
    ((handleParsedMessage 2
        (handleParsedMessage 1 stFull "s" "v1" (srcRemoveMsg "s" "k")).1
        "s" "v1" (srcRemoveMsg "s" "k")).2 =
      broadcastToSession stFull.connections "s"
          ⟨.sourceRemove, "s",
           some { MsgData.empty with
                  videoSources :=
                    .val ((jsOrArr sessFull.videoSources []).filter
                      (fun v => v.id != "k")) }⟩
          none ++
        broadcastToSession stFull.connections "s" (srcRemoveMsg "s" "k")
          (some "v1")) :=
  ⟨⟨by decide, by decide⟩,
    source_remove_idempotent 1 2 stFull "s" "v1" "s" "k" sessFull
      (by decide) (by decide)⟩

theorem ctNonnegB_jsOrNullInt (x : JsVal Int) (h : ctNonnegB x = true) :
    ctNonnegB (jsOrNullInt x) = true := by
  cases x with
  | undef => rfl
  | null => rfl
  | val n =>
    unfold jsOrNullInt
    by_cases hz : n = 0
    · simp [hz, ctNonnegB]
    · simpa [hz, ctNonnegB] using h

theorem storeCt_get (store : SessionStore) (sid : String) (s : Session)
    (h : storeCtNonneg store = true) (hg : getSession store sid = some s) :
    ctNonnegB s.currentTime = true := by
  obtain ⟨p, hp, rfl⟩ := mem_of_mapGet store sid s hg
  exact (List.all_eq_true.mp h) p hp

theorem storeCt_updateSession (now : Nat) (store : SessionStore) (id : String)
    (u : SessionUpdates) (h : storeCtNonneg store = true)
    (hu : ∀ v, u.currentTime = some v → ctNonnegB v = true) :
    storeCtNonneg (updateSession now store id u).1 = true := by
  unfold updateSession
  rcases hg : getSession store id with _ | s
  · exact h
  · simp only []
    unfold storeCtNonneg at h ⊢
    apply all_mapSet (fun sess => ctNonnegB sess.currentTime) store id _ h
    rcases hc : u.currentTime with _ | v
    · simpa [spreadField, hc] using storeCt_get store id s h hg
    · simpa [spreadField, hc] using hu v hc

theorem storeCt_removeVideoSource (now : Nat) (store : SessionStore)
    (sid x : String) (h : storeCtNonneg store = true) :
    storeCtNonneg (removeVideoSource now store sid x).1 = true := by
  unfold removeVideoSource
  rcases hg : getSession store sid with _ | s
  · exact h
  · simp only []
    apply storeCt_updateSession _ _ _ _ h
    intro v hv
    simp [SessionUpdates.none] at hv

theorem storeCt_addVideoSource (now : Nat) (store : SessionStore)
    (sid : String) (src : VideoSource) (h : storeCtNonneg store = true) :
    storeCtNonneg (addVideoSource now store sid src).1 = true := by
  unfold addVideoSource
  rcases hg : getSession store sid with _ | s
  · exact h
  · simp only []
    apply storeCt_updateSession _ _ _ _ h
    intro v hv
    simp [SessionUpdates.none] at hv

/-- Counterexample to claim C8 as stated: creation through the POST
handler stores currentTime null rather than the number 0 (the storage
coerces `0 || null`), and a seek message carrying a negative currentTime
is stored unvalidated, leaving the session's currentTime at -5. -/
theorem currenttime_counterexample :
    ((postSessions 0 [] "s" JsVal.undef).2.currentTime = JsVal.null) ∧
    ((getSession (handleParsedMessage 1
        ⟨(postSessions 0 [] "s" JsVal.undef).1, [], 1, []⟩ "s" "v1"
        ⟨.seek, "s", some { MsgData.empty with currentTime := .val (-5) }⟩
      ).1.sessions "s").map (fun s => s.currentTime) =
      some (JsVal.val (-5))) := by
  decide

/-- Claim C8 amended: no operation clamps currentTime, so non-negativity
is only preserved, not enforced - creation stores `currentTime || null`
(null when the initial value is 0, itself non-negative), and every
message handler writes the message's own currentTime into the store, so
the invariant `a numeric currentTime is never negative` is preserved by
createSession and by every handled message exactly when the incoming
values are non-negative. -/
theorem currenttime_nonneg_amended :
    (∀ (now : Nat) (store : SessionStore) (ins : InsertSession),
      storeCtNonneg store = true → ctNonnegB ins.currentTime = true →
      storeCtNonneg (createSession now store ins).1 = true) ∧
    (∀ (now : Nat) (st : ServerState) (sid vid : String) (m : Message),
      storeCtNonneg st.sessions = true →
      ctNonnegB m.dataOf.currentTime = true →
      storeCtNonneg (handleParsedMessage now st sid vid m).1.sessions =
        true) := by
  constructor
  · intro now store ins h hc
    unfold createSession
    simp only []
    unfold storeCtNonneg at h ⊢
    apply all_mapSet (fun sess => ctNonnegB sess.currentTime) store ins.id _ h
    exact ctNonnegB_jsOrNullInt ins.currentTime hc
  · intro now st sid vid m h hc
    rcases m with ⟨t, msid, mdata⟩
    cases t with
    | sync =>
      simp only [handleParsedMessage, isPlaybackType]
      simp
      apply storeCt_updateSession _ _ _ _ h
      intro v hv
      simp [SessionUpdates.none] at hv
      rw [← hv]
      exact hc
    | play =>
      simp only [handleParsedMessage, isPlaybackType]
      simp
      apply storeCt_updateSession _ _ _ _ h
      intro v hv
      simp [SessionUpdates.none] at hv
      rw [← hv]
      exact hc
    | pause =>
      simp only [handleParsedMessage, isPlaybackType]
      simp
      apply storeCt_updateSession _ _ _ _ h
      intro v hv
      simp [SessionUpdates.none] at hv
      rw [← hv]
      exact hc
    | seek =>
      simp only [handleParsedMessage, isPlaybackType]
      simp
      apply storeCt_updateSession _ _ _ _ h
      intro v hv
      simp [SessionUpdates.none] at hv
      rw [← hv]
      exact hc
    | videoChange =>
      simp only [handleParsedMessage, isPlaybackType]
      simp
      split
      · apply storeCt_updateSession _ _ _ _ h
        intro v hv
        simp [SessionUpdates.none] at hv
        rw [← hv]
        rfl
      · exact h
    | sourceAdd =>
      simp only [handleParsedMessage, isPlaybackType]
      simp
      split
      · exact storeCt_addVideoSource _ _ _ _ h
      · exact h
    | sourceRemove =>
      simp only [handleParsedMessage, isPlaybackType]
      simp
      split
      · exact storeCt_removeVideoSource _ _ _ _ h
      · exact h
    | sourceChange =>
      simpa [handleParsedMessage, isPlaybackType] using h
    | viewerJoin =>
      simpa [handleParsedMessage, isPlaybackType] using h
    | viewerLeave =>
      simpa [handleParsedMessage, isPlaybackType] using h
    | reaction =>
      simpa [handleParsedMessage, isPlaybackType] using h

/-- Witness for C8's amended preservation theorem at concrete inputs. -/
theorem currenttime_nonneg_amended_witness :
    (storeCtNonneg [("s", sessFull)] = true ∧
     ctNonnegB (JsVal.val 3) = true) ∧
    storeCtNonneg (createSession 2 [("s", sessFull)]
        ⟨"t", .undef, .undef, .val false, .val 3⟩).1 = true ∧
    storeCtNonneg (handleParsedMessage 2 ⟨[("s", sessFull)], [], 1, []⟩
        "s" "v1"
        ⟨.seek, "s", some { MsgData.empty with currentTime := .val 3 }⟩
      ).1.sessions = true :=
  ⟨⟨by decide, by decide⟩,
   currenttime_nonneg_amended.1 2 [("s", sessFull)]
     ⟨"t", .undef, .undef, .val false, .val 3⟩ (by decide) (by decide),
   currenttime_nonneg_amended.2 2 ⟨[("s", sessFull)], [], 1, []⟩ "s" "v1"
     ⟨.seek, "s", some { MsgData.empty with currentTime := .val 3 }⟩
     (by decide) (by decide)⟩

/-! Claim C9: collisions of the composite viewer-registry key. -/

theorem append_dash_inj (l1 : List Char) (m1 l2 m2 : List Char)
    (h1 : ('-' : Char) ∉ l1) (h2 : ('-' : Char) ∉ l2)
    (he : l1 ++ '-' :: m1 = l2 ++ '-' :: m2) : l1 = l2 ∧ m1 = m2 := by
  induction l1 generalizing l2 with
  | nil =>
    cases l2 with
    | nil => simpa using he
    | cons c t =>
      simp only [List.nil_append, List.cons_append, List.cons.injEq] at he
      exact absurd (he.1 ▸ List.mem_cons_self c t) h2
  | cons c t ih =>
    cases l2 with
    | nil =>
      simp only [List.nil_append, List.cons_append, List.cons.injEq] at he
      exact absurd (he.1 ▸ List.mem_cons_self c t) h1
    | cons c2 t2 =>
      simp only [List.cons_append, List.cons.injEq] at he
      obtain ⟨rfl, he2⟩ := he
      have hr := ih t2 (fun hm => h1 (List.mem_cons_of_mem _ hm))
        (fun hm => h2 (List.mem_cons_of_mem _ hm)) he2
      exact ⟨by rw [hr.1], hr.2⟩

theorem viewerKey_inj (s1 v1 s2 v2 : String)
    (h1 : ('-' : Char) ∉ s1.data) (h2 : ('-' : Char) ∉ s2.data)
    (hne : (s1, v1) ≠ (s2, v2)) : viewerKey s1 v1 ≠ viewerKey s2 v2 := by
  intro he
  unfold viewerKey at he
  have hd : s1.data ++ '-' :: v1.data = s2.data ++ '-' :: v2.data := by
    have hq := congrArg String.data he
    simpa [String.data_append] using hq
  obtain ⟨hs, hv⟩ := append_dash_inj s1.data v1.data s2.data v2.data h1 h2 hd
  exact hne (by rw [String.ext hs, String.ext hv])

/-- Counterexample to claim C9 as stated: the composite key string is
ambiguous - the distinct pairs ("a-b","c") and ("a","b-c") share the key
"a-b-c", so adding the second pair overwrites the registry entry of the
first. -/
theorem viewer_key_collision_counterexample :
    viewerKey "a-b" "c" = viewerKey "a" "b-c" ∧
    mapGet (addViewer [] 1 0 "a-b" "c").1 (viewerKey "a-b" "c") =
      some ⟨1, "a-b", "c", 0⟩ ∧
    mapGet (addViewer (addViewer [] 1 0 "a-b" "c").1 2 5 "a" "b-c").1
      (viewerKey "a-b" "c") = some ⟨2, "a", "b-c", 5⟩ := by
  decide

/-- Claim C9 amended: registry entries of distinct (sessionId, viewerId)
pairs never collide provided the two sessionIds are free of the
separator character: add on one pair never creates or overwrites the
other pair's entry, remove never deletes it, and touch never updates it;
in particular the same viewerId in two different separator-free sessions
is kept separate.  Pairs whose composite strings coincide, such as
("a-b","c") and ("a","b-c"), do collide. -/
theorem viewer_registry_amended (viewers : List (String × Viewer))
    (nextId now : Nat) (s1 v1 s2 v2 : String)
    (h1 : ('-' : Char) ∉ s1.data) (h2 : ('-' : Char) ∉ s2.data)
    (hne : (s1, v1) ≠ (s2, v2)) :
    mapGet (addViewer viewers nextId now s1 v1).1 (viewerKey s2 v2) =
        mapGet viewers (viewerKey s2 v2) ∧
    mapGet (removeViewer viewers s1 v1).1 (viewerKey s2 v2) =
        mapGet viewers (viewerKey s2 v2) ∧
    mapGet (updateViewerLastSeen viewers now s1 v1) (viewerKey s2 v2) =
        mapGet viewers (viewerKey s2 v2) := by
  have hk : viewerKey s2 v2 ≠ viewerKey s1 v1 :=
    Ne.symm (viewerKey_inj s1 v1 s2 v2 h1 h2 hne)
  refine ⟨?_, ?_, ?_⟩
  · unfold addViewer
    simp only []
    rw [mapGet_mapSet, if_neg hk]
  · unfold removeViewer
    simp only []
    exact mapGet_mapDelete viewers (viewerKey s1 v1) (viewerKey s2 v2) hk
  · unfold updateViewerLastSeen
    rcases hw : mapGet viewers (viewerKey s1 v1) with _ | w
    · rfl
    · rw [mapGet_mapSet, if_neg hk]

/-- Witness for C9's amended theorem: the same viewerId "x" in the two
separator-free sessions "a" and "b" stays separate under add, remove and
touch. -/
theorem viewer_registry_amended_witness :
    (('-' : Char) ∉ ("a" : String).data ∧ ('-' : Char) ∉ ("b" : String).data ∧
     (("a", "x") : String × String) ≠ ("b", "x")) ∧
    (mapGet (addViewer (addViewer [] 1 0 "b" "x").1 2 5 "a" "x").1
        (viewerKey "b" "x") =
      mapGet (addViewer [] 1 0 "b" "x").1 (viewerKey "b" "x") ∧
     mapGet (removeViewer (addViewer [] 1 0 "b" "x").1 "a" "x").1
        (viewerKey "b" "x") =
      mapGet (addViewer [] 1 0 "b" "x").1 (viewerKey "b" "x") ∧
     mapGet (updateViewerLastSeen (addViewer [] 1 0 "b" "x").1 5 "a" "x")
        (viewerKey "b" "x") =
      mapGet (addViewer [] 1 0 "b" "x").1 (viewerKey "b" "x")) :=
  ⟨⟨by decide, by decide, by decide⟩,
    viewer_registry_amended (addViewer [] 1 0 "b" "x").1 2 5 "a" "x" "b" "x"
      (by decide) (by decide) (by decide)⟩
